import Mathlib

/-!
Shallow embedding of the color-model conversion engine of the repository
(five models: HEX, RGB, HSL, HWB, HSV).

Sources embedded here:
- `src/src/utils/classes/services/color-converter-service.class.ts`
  (class `ColorsConverterMethods` and its subclass `ColorConverter`,
  embedded below under the namespaces `ColorsConverterMethods` and
  `ServiceColorConverter`);
- `src/unnamed/part_002`, first file (class `AbstractConversionMethods`
  and its subclass `ColorConverter`, embedded below under the namespaces
  `AbstractConversionMethods` and `AbstractColorConverter`);
- `src/src/utils/functions/helper-functions/string.functions.ts`
  (`sliceString`, `getSubtring`).

JavaScript numbers are embedded as exact rationals (`ℚ`); every numeric
operation performed by the code (division, `Math.min`/`Math.max`,
`Math.round`, `Math.abs`, the `%` remainder operator) is exact on the
rationals the conversion code manipulates, so the embedding is faithful on
every input a theorem below mentions.  The JavaScript `NaN` produced by a
failed `parseInt` is embedded as `Option.none`; a record one of whose
channels is `NaN` is collapsed to `none` when it crosses the
converter-pipeline boundary (`RgbParse.lift`), which is observationally
identical on every input whose channels all parse — the only inputs the
pipeline theorems below quantify over.
-/

set_option maxRecDepth 8000

/-- JavaScript truncation toward zero, as used by the `%` operator on numbers. -/
def ratTrunc (q : ℚ) : ℤ := if q < 0 then -⌊-q⌋ else ⌊q⌋

/-- JavaScript `Math.round`: round half toward positive infinity. -/
def jsRound (q : ℚ) : ℚ := ((⌊q + 1/2⌋ : ℤ) : ℚ)

/-- JavaScript `%` on numbers: `x - y * trunc(x / y)` (remainder with the
dividend's sign).  Only ever applied with a nonzero constant divisor by the
code below. -/
def jsMod (x y : ℚ) : ℚ := x - y * ((ratTrunc (x / y) : ℤ) : ℚ)

/-- `sliceString` from `string.functions.ts`: `string.slice(startIndex)`
(the code under embedding only ever calls it with the single index 1).
A negative index counts from the end, as in JavaScript. -/
def sliceString (s : String) (startIndex : ℤ) : String :=
  let l := s.toList
  ⟨l.drop (if startIndex < 0 then (startIndex + l.length).toNat else startIndex.toNat)⟩

/-- `getSubtring` from `string.functions.ts`: `string.substring(startIndex,
endIndex)`, which clamps both indexes to the string length and swaps them
when out of order. -/
def getSubtring (s : String) (startIndex endIndex : ℕ) : String :=
  let l := s.toList
  let a := min startIndex l.length
  let b := min endIndex l.length
  ⟨(l.drop (min a b)).take (max a b - min a b)⟩

/-- Modelled from the spec: `number.functions.ts` (imported by the
conversion classes for `decimalToHexadecimal` / `hexadecimalToDecimal`) is
not under `src/`.  A hexadecimal digit as accepted by JavaScript
`parseInt(·, 16)`. -/
def isHexDigitChar (c : Char) : Bool :=
  c.isDigit || ('a' ≤ c && c ≤ 'f') || ('A' ≤ c && c ≤ 'F')

/-- Modelled from the spec: numeric value of a hexadecimal digit character. -/
def hexDigitVal (c : Char) : ℕ :=
  if c.isDigit then c.toNat - '0'.toNat
  else if 'a' ≤ c then c.toNat - 'a'.toNat + 10
  else c.toNat - 'A'.toNat + 10

/-- Modelled from the spec: accumulate the longest leading run of
hexadecimal digits, ignoring everything after the first non-digit, exactly
as JavaScript `parseInt(·, 16)` does. -/
def parseHexDigits : List Char → ℕ → ℕ
  | [], acc => acc
  | c :: cs, acc =>
    if isHexDigitChar c then parseHexDigits cs (16 * acc + hexDigitVal c) else acc

/-- Modelled from the spec ("each parsed as base-16"): `hexadecimalToDecimal`
from the missing `number.functions.ts`, i.e. JavaScript `parseInt(s, 16)`:
an optional leading `0x`/`0X` is skipped, then the longest leading run of
hexadecimal digits is parsed; `none` embeds the `NaN` returned when that
run is empty.  (The whitespace/sign handling of `parseInt` is not modelled;
no theorem below feeds a string carrying either.) -/
def hexadecimalToDecimal (s : String) : Option ℕ :=
  let l := if s.toList.take 2 = ['0', 'x'] ∨ s.toList.take 2 = ['0', 'X']
           then s.toList.drop 2 else s.toList
  match l with
  | [] => none
  | c :: _ => if isHexDigitChar c then some (parseHexDigits l 0) else none

/-- Modelled from the spec: `decimalToHexadecimal` from the missing
`number.functions.ts`, i.e. JavaScript `Number.prototype.toString(16)` on
the nonnegative integers the conversion code passes it.  It does NOT
zero-pad: callers inside `src/` that need padding apply
`.padStart(2, "0")` themselves (`video.functions.ts`, lines 375-377),
which the conversion classes do not.  Negative or fractional inputs (which
JavaScript would render with a sign or fractional hex digits) never occur
in any theorem below and are mapped to `""`. -/
def decimalToHexadecimal (q : ℚ) : String :=
  if q.den = 1 ∧ 0 ≤ q.num then ⟨Nat.toDigits 16 q.num.toNat⟩ else ""

/-- `RedGreenBlue` from `color-types.variables` (`src/unnamed/part_003`). -/
structure RedGreenBlue where
  red : ℚ
  green : ℚ
  blue : ℚ
deriving DecidableEq

/-- `HueSaturationLightness` from `color-types.variables`. -/
structure HueSaturationLightness where
  hue : ℚ
  saturation : ℚ
  lightness : ℚ
deriving DecidableEq

/-- `HueWhitenessBlackness` from `color-types.variables`. -/
structure HueWhitenessBlackness where
  hue : ℚ
  whiteness : ℚ
  blackness : ℚ
deriving DecidableEq

/-- `HueSaturationValue` from `color-types.variables`. -/
structure HueSaturationValue where
  hue : ℚ
  saturation : ℚ
  value : ℚ
deriving DecidableEq

/-- Result of `fromHexToRgb`: an RGB record whose channels may be the `NaN`
produced by a failed `parseInt` (embedded as `none`). -/
structure RgbParse where
  red : Option ℚ
  green : Option ℚ
  blue : Option ℚ
deriving DecidableEq

/-- A channel-wise `NaN`-free `RedGreenBlue` viewed as a parse result. -/
def RgbParse.ofRgb (c : RedGreenBlue) : RgbParse :=
  { red := some c.red, green := some c.green, blue := some c.blue }

namespace ColorsConverterMethods

/-- `ColorsConverterMethods.fromRgbToHex`
(`color-converter-service.class.ts`, lines 17-25).  Note the template
string appends a `;` after the three (unpadded) hex groups. -/
def fromRgbToHex (color : RedGreenBlue) : String :=
  "#" ++ decimalToHexadecimal color.red ++ decimalToHexadecimal color.green
      ++ decimalToHexadecimal color.blue ++ ";"

/-- The guard of the `console.error` call in `fromHexToRgb` (lines 28-34):
`true` exactly when the function logs an error message.  Logging is the
only effect of the guard; the conversion then proceeds regardless. -/
def fromHexToRgbLogs (color : String) : Bool :=
  decide (color.length < 6) || decide (7 < color.length)

/-- `ColorsConverterMethods.fromHexToRgb`
(`color-converter-service.class.ts`, lines 27-59): strip an optional
leading `#`, split positions 0-2 / 2-4 / 4-6, parse each group base-16. -/
def fromHexToRgb (color : String) : RgbParse :=
  let hexColor := if color.toList.head? = some '#' then sliceString color 1 else color
  let redBase16 := getSubtring hexColor 0 2
  let greeBase16 := getSubtring hexColor 2 4
  let blueBase16 := getSubtring hexColor 4 6
  { red := (hexadecimalToDecimal redBase16).map (fun n => (n : ℚ))
    green := (hexadecimalToDecimal greeBase16).map (fun n => (n : ℚ))
    blue := (hexadecimalToDecimal blueBase16).map (fun n => (n : ℚ)) }

/-- The guard of the `console.error` call in `fromRgbToHsl` (lines 64-78):
`true` exactly when the function logs (non-integral channel or channel
outside [0,255]).  The conversion then proceeds on the unclamped input. -/
def fromRgbToHslLogs (color : RedGreenBlue) : Bool :=
  !(color.red.den == 1) || !(color.green.den == 1) || !(color.blue.den == 1) ||
  decide (color.red < 0) || decide (255 < color.red) ||
  decide (color.green < 0) || decide (255 < color.green) ||
  decide (color.blue < 0) || decide (255 < color.blue)

/-- `ColorsConverterMethods.fromRgbToHsl`
(`color-converter-service.class.ts`, lines 61-145).  The JavaScript
`switch (max)` compares `max` with the red, green, blue normalized values
in that order; since `Math.max` always returns one of its arguments, the
final branch is the blue case. -/
def fromRgbToHsl (color : RedGreenBlue) : HueSaturationLightness :=
  let normalizedRed := color.red / 255
  let normalizedGreen := color.green / 255
  let normalizedBlue := color.blue / 255
  let maxC := max normalizedRed (max normalizedGreen normalizedBlue)
  let minC := min normalizedRed (min normalizedGreen normalizedBlue)
  let delta := maxC - minC
  let lightness := (maxC + minC) / 2
  let saturation : ℚ :=
    if maxC = minC then 0
    else if lightness > 1/2 then delta / (2 - maxC - minC) else delta / (maxC + minC)
  let hue : ℚ :=
    if maxC = minC then 0
    else if maxC = normalizedRed then
      ((normalizedGreen - normalizedBlue) / delta +
        (if normalizedGreen < normalizedBlue then 6 else 0)) / 6
    else if maxC = normalizedGreen then
      ((normalizedBlue - normalizedRed) / delta + 2) / 6
    else
      ((normalizedRed - normalizedGreen) / delta + 4) / 6
  { hue := jsMod (jsRound (hue * 360)) 360
    saturation := jsRound (saturation * 100)
    lightness := jsRound (lightness * 100) }

/-- `ColorsConverterMethods.fromHslToRgb`
(`color-converter-service.class.ts`, lines 147-170).  Note: the returned
components use the RAW `lightness` (0-100 scale) while `chroma` is on the
normalized 0-1 scale, and no rounding or scaling to [0,255] happens — this
variant differs from `AbstractConversionMethods.fromHslToRgb` below. -/
def fromHslToRgb (color : HueSaturationLightness) : RedGreenBlue :=
  let normalizedSaturation := color.saturation / 100
  let normalizedLightness := color.lightness / 100
  let calculateComponent : ℚ → ℚ := fun colorValue =>
    let colorComponent := jsMod (colorValue + color.hue / 30) 12
    let chroma := normalizedSaturation * min normalizedLightness (1 - normalizedLightness)
    color.lightness -
      chroma * max (-1) (min (colorComponent - 3) (min (9 - colorComponent) 1))
  { red := calculateComponent 0
    green := calculateComponent 8
    blue := calculateComponent 4 }

/-- `ColorsConverterMethods.fromRgbToHwb`
(`color-converter-service.class.ts`, lines 172-194). -/
def fromRgbToHwb (color : RedGreenBlue) : HueWhitenessBlackness :=
  let normalizedRed := color.red / 255
  let normalizedGreen := color.green / 255
  let normalizedBlue := color.blue / 255
  let hue := (fromRgbToHsl color).hue
  let whiteness := min normalizedRed (min normalizedGreen normalizedBlue)
  let blackness := 1 - max normalizedRed (max normalizedGreen normalizedBlue)
  { hue := jsMod hue 360
    whiteness := jsRound (whiteness * 100)
    blackness := jsRound (blackness * 100) }

/-- `ColorsConverterMethods.fromHwbToRgb`
(`color-converter-service.class.ts`, lines 196-234).  Both branches scale
by 100 (not 255), and the non-grey branch blends the UNnormalized output
of `fromHslToRgb` (which in this class is itself on the raw lightness
scale). -/
def fromHwbToRgb (color : HueWhitenessBlackness) : RedGreenBlue :=
  let normalizedWhiteness := color.whiteness / 100
  let normalizedBlackness := color.blackness / 100
  if normalizedWhiteness + normalizedBlackness ≥ 1 then
    let greyColor := normalizedWhiteness / (normalizedWhiteness + normalizedBlackness)
    { red := jsRound (greyColor * 100)
      green := jsRound (greyColor * 100)
      blue := jsRound (greyColor * 100) }
  else
    let c := fromHslToRgb { hue := color.hue, saturation := 100, lightness := 50 }
    { red := jsRound ((c.red * (1 - normalizedWhiteness - normalizedBlackness)
              + normalizedWhiteness) * 100)
      green := jsRound ((c.green * (1 - normalizedWhiteness - normalizedBlackness)
              + normalizedWhiteness) * 100)
      blue := jsRound ((c.blue * (1 - normalizedWhiteness - normalizedBlackness)
              + normalizedWhiteness) * 100) }

/-- `ColorsConverterMethods.fromRgbToHsv`
(`color-converter-service.class.ts`, lines 236-252); `min`/`max` are taken
over the RAW channels here. -/
def fromRgbToHsv (color : RedGreenBlue) : HueSaturationValue :=
  let minC := min color.red (min color.green color.blue)
  let maxC := max color.red (max color.green color.blue)
  let hue := (fromRgbToHsl color).hue
  let normalizedSaturation : ℚ := if maxC ≠ 0 then 1 - minC / maxC else 0
  let normalizedValue := maxC / 255
  { hue := jsMod hue 360
    saturation := jsRound (normalizedSaturation * 100)
    value := jsRound (normalizedValue * 100) }

/-- `ColorsConverterMethods.fromHsvToRgb`
(`color-converter-service.class.ts`, lines 254-309).  This variant scales
the final channels by 100 (lines 305-307), not 255. -/
def fromHsvToRgb (color : HueSaturationValue) : RedGreenBlue :=
  let normalizedSaturation := color.saturation / 100
  let normalizedValue := color.value / 100
  let chroma := normalizedValue * normalizedSaturation
  let hueSegment := color.hue / 60
  let intermediate := chroma * (1 - |jsMod hueSegment 2 - 1|)
  let lightnessAdjustment := normalizedValue - chroma
  let rgb : ℚ × ℚ × ℚ :=
    if 0 ≤ hueSegment ∧ hueSegment < 1 then (chroma, intermediate, 0)
    else if 1 ≤ hueSegment ∧ hueSegment < 2 then (intermediate, chroma, 0)
    else if 2 ≤ hueSegment ∧ hueSegment < 3 then (0, chroma, intermediate)
    else if 3 ≤ hueSegment ∧ hueSegment < 4 then (0, intermediate, chroma)
    else if 4 ≤ hueSegment ∧ hueSegment < 5 then (intermediate, 0, chroma)
    else (chroma, 0, intermediate)
  { red := jsRound ((rgb.1 + lightnessAdjustment) * 100)
    green := jsRound ((rgb.2.1 + lightnessAdjustment) * 100)
    blue := jsRound ((rgb.2.2 + lightnessAdjustment) * 100) }

end ColorsConverterMethods

namespace AbstractConversionMethods

/-- `AbstractConversionMethods.fromRgbToHex` (`src/unnamed/part_002`,
lines 26-34): textually identical to the `ColorsConverterMethods` one. -/
def fromRgbToHex : RedGreenBlue → String := ColorsConverterMethods.fromRgbToHex

/-- Log guard of `AbstractConversionMethods.fromHexToRgb`: textually
identical to the `ColorsConverterMethods` one. -/
def fromHexToRgbLogs : String → Bool := ColorsConverterMethods.fromHexToRgbLogs

/-- `AbstractConversionMethods.fromHexToRgb` (`src/unnamed/part_002`,
lines 41-73): textually identical to the `ColorsConverterMethods` one. -/
def fromHexToRgb : String → RgbParse := ColorsConverterMethods.fromHexToRgb

/-- Log guard of `AbstractConversionMethods.fromRgbToHsl`: textually
identical to the `ColorsConverterMethods` one. -/
def fromRgbToHslLogs : RedGreenBlue → Bool := ColorsConverterMethods.fromRgbToHslLogs

/-- `AbstractConversionMethods.fromRgbToHsl` (`src/unnamed/part_002`,
lines 80-164): textually identical to the `ColorsConverterMethods` one. -/
def fromRgbToHsl : RedGreenBlue → HueSaturationLightness :=
  ColorsConverterMethods.fromRgbToHsl

/-- `AbstractConversionMethods.fromHslToRgb` (`src/unnamed/part_002`,
lines 171-195): unlike the `ColorsConverterMethods` variant, the component
uses `normalizedLightness` and each channel is `Math.round(· * 255)`. -/
def fromHslToRgb (color : HueSaturationLightness) : RedGreenBlue :=
  let normalizedSaturation := color.saturation / 100
  let normalizedLightness := color.lightness / 100
  let calculateComponent : ℚ → ℚ := fun colorValue =>
    let colorComponent := jsMod (colorValue + color.hue / 30) 12
    let chroma := normalizedSaturation * min normalizedLightness (1 - normalizedLightness)
    normalizedLightness -
      chroma * max (-1) (min (colorComponent - 3) (min (9 - colorComponent) 1))
  { red := jsRound (calculateComponent 0 * 255)
    green := jsRound (calculateComponent 8 * 255)
    blue := jsRound (calculateComponent 4 * 255) }

/-- `AbstractConversionMethods.fromRgbToHwb` (`src/unnamed/part_002`,
lines 202-224): textually identical to the `ColorsConverterMethods` one
(and it calls `fromRgbToHsl`, which is also identical). -/
def fromRgbToHwb : RedGreenBlue → HueWhitenessBlackness :=
  ColorsConverterMethods.fromRgbToHwb

/-- `AbstractConversionMethods.fromHwbToRgb` (`src/unnamed/part_002`,
lines 231-273).  The grey branch still scales by 100 (lines 243-245), but
the non-grey branch — unlike the `ColorsConverterMethods` variant —
normalizes the HSL-derived channels by 255 before blending and scales the
result by 255 (lines 254-272). -/
def fromHwbToRgb (color : HueWhitenessBlackness) : RedGreenBlue :=
  let normalizedWhiteness := color.whiteness / 100
  let normalizedBlackness := color.blackness / 100
  if normalizedWhiteness + normalizedBlackness ≥ 1 then
    let greyColor := normalizedWhiteness / (normalizedWhiteness + normalizedBlackness)
    { red := jsRound (greyColor * 100)
      green := jsRound (greyColor * 100)
      blue := jsRound (greyColor * 100) }
  else
    let c := fromHslToRgb { hue := color.hue, saturation := 100, lightness := 50 }
    let normalizedRed := c.red / 255
    let normalizedGreen := c.green / 255
    let normalizedBlue := c.blue / 255
    { red := jsRound ((normalizedRed * (1 - normalizedWhiteness - normalizedBlackness)
              + normalizedWhiteness) * 255)
      green := jsRound ((normalizedGreen * (1 - normalizedWhiteness - normalizedBlackness)
              + normalizedWhiteness) * 255)
      blue := jsRound ((normalizedBlue * (1 - normalizedWhiteness - normalizedBlackness)
              + normalizedWhiteness) * 255) }

/-- `AbstractConversionMethods.fromRgbToHsv` (`src/unnamed/part_002`,
lines 280-296): textually identical to the `ColorsConverterMethods` one. -/
def fromRgbToHsv : RedGreenBlue → HueSaturationValue :=
  ColorsConverterMethods.fromRgbToHsv

/-- `AbstractConversionMethods.fromHsvToRgb` (`src/unnamed/part_002`,
lines 303-358): same hue-segment decomposition as the
`ColorsConverterMethods` variant but the final channels scale by 255
(lines 354-356). -/
def fromHsvToRgb (color : HueSaturationValue) : RedGreenBlue :=
  let normalizedSaturation := color.saturation / 100
  let normalizedValue := color.value / 100
  let chroma := normalizedValue * normalizedSaturation
  let hueSegment := color.hue / 60
  let intermediate := chroma * (1 - |jsMod hueSegment 2 - 1|)
  let lightnessAdjustment := normalizedValue - chroma
  let rgb : ℚ × ℚ × ℚ :=
    if 0 ≤ hueSegment ∧ hueSegment < 1 then (chroma, intermediate, 0)
    else if 1 ≤ hueSegment ∧ hueSegment < 2 then (intermediate, chroma, 0)
    else if 2 ≤ hueSegment ∧ hueSegment < 3 then (0, chroma, intermediate)
    else if 3 ≤ hueSegment ∧ hueSegment < 4 then (0, intermediate, chroma)
    else if 4 ≤ hueSegment ∧ hueSegment < 5 then (intermediate, 0, chroma)
    else (chroma, 0, intermediate)
  { red := jsRound ((rgb.1 + lightnessAdjustment) * 255)
    green := jsRound ((rgb.2.1 + lightnessAdjustment) * 255)
    blue := jsRound ((rgb.2.2 + lightnessAdjustment) * 255) }

end AbstractConversionMethods

/-- The tagged union of color payloads a `ColorConverter` can be given
(`string | RedGreenBlue | HueSaturationLightness | HueWhitenessBlackness
| HueSaturationValue`). -/
inductive ColorValue where
  | hexV (s : String)
  | rgbV (c : RedGreenBlue)
  | hslV (c : HueSaturationLightness)
  | hwbV (c : HueWhitenessBlackness)
  | hsvV (c : HueSaturationValue)
deriving DecidableEq

/-- The union of values a conversion entry point can return. -/
inductive ColorOutput where
  | hexO (s : String)
  | rgbO (c : RedGreenBlue)
  | hslO (c : HueSaturationLightness)
  | hwbO (c : HueWhitenessBlackness)
  | hsvO (c : HueSaturationValue)
deriving DecidableEq

/-- Apply an RGB-consuming conversion to a parse result; a record with a
`NaN` channel is collapsed to `none` (see the header comment). -/
def RgbParse.lift (p : RgbParse) (f : RedGreenBlue → ColorOutput) : Option ColorOutput :=
  match p.red, p.green, p.blue with
  | some r, some g, some b => some (f { red := r, green := g, blue := b })
  | _, _, _ => none

namespace AbstractColorConverter

/-- `ColorConverter.normalizeToRgb` from `src/unnamed/part_002` (lines
403-438): a `switch` on `this.currentModel` whose default case is
`throw new Error("Invalid color model.")`; a thrown exception is embedded
as `Except.error` carrying the `Error` message.  The TypeScript `as` casts
mean a payload not matching the tag would read `undefined` fields; that
never happens in the theorems below and is embedded as an all-`none`
record. -/
def normalizeToRgb (currentModel : String) (color : ColorValue) : Except String RgbParse :=
  if currentModel = "hex" then
    match color with
    | .hexV s => .ok (AbstractConversionMethods.fromHexToRgb s)
    | _ => .ok { red := none, green := none, blue := none }
  else if currentModel = "rgb" then
    match color with
    | .rgbV c => .ok (RgbParse.ofRgb c)
    | _ => .ok { red := none, green := none, blue := none }
  else if currentModel = "hsl" then
    match color with
    | .hslV c => .ok (RgbParse.ofRgb (AbstractConversionMethods.fromHslToRgb c))
    | _ => .ok { red := none, green := none, blue := none }
  else if currentModel = "hwb" then
    match color with
    | .hwbV c => .ok (RgbParse.ofRgb (AbstractConversionMethods.fromHwbToRgb c))
    | _ => .ok { red := none, green := none, blue := none }
  else if currentModel = "hsv" then
    match color with
    | .hsvV c => .ok (RgbParse.ofRgb (AbstractConversionMethods.fromHsvToRgb c))
    | _ => .ok { red := none, green := none, blue := none }
  else .error "Invalid color model."

/-- The fields of a constructed `ColorConverter` object from
`src/unnamed/part_002`: the public `color` and `currentModel` fields and
the private `normalizedColor` computed once by the constructor. -/
structure State where
  color : ColorValue
  currentModel : String
  normalizedColor : RgbParse
deriving DecidableEq

/-- The `ColorConverter` constructor (`src/unnamed/part_002`, lines
380-397): store the arguments, then run `normalizeToRgb` once. -/
def mk (currentModel : String) (color : ColorValue) : Except String State :=
  (normalizeToRgb currentModel color).map
    (fun p => { color := color, currentModel := currentModel, normalizedColor := p })

/-- `ColorConverter.convertTo` from `src/unnamed/part_002` (lines
445-474): a `switch` on `targetModel` that applies the matching
RGB-to-target method to `this.normalizedColor` (the `rgb` case returns it
unchanged); the default case throws `Error("Invalid color model.")`. -/
def convertTo (s : State) (targetModel : String) : Except String (Option ColorOutput) :=
  if targetModel = "hex" then
    .ok (s.normalizedColor.lift (fun c => .hexO (AbstractConversionMethods.fromRgbToHex c)))
  else if targetModel = "rgb" then
    .ok (s.normalizedColor.lift .rgbO)
  else if targetModel = "hsl" then
    .ok (s.normalizedColor.lift (fun c => .hslO (AbstractConversionMethods.fromRgbToHsl c)))
  else if targetModel = "hwb" then
    .ok (s.normalizedColor.lift (fun c => .hwbO (AbstractConversionMethods.fromRgbToHwb c)))
  else if targetModel = "hsv" then
    .ok (s.normalizedColor.lift (fun c => .hsvO (AbstractConversionMethods.fromRgbToHsv c)))
  else .error "Invalid color model."

/-- `ColorConverter.getAllColorModels` from `src/unnamed/part_002` (lines
480-494): the five representations, all read off the one stored
`normalizedColor`. -/
def getAllColorModels (s : State) : List (Option ColorOutput) :=
  [s.normalizedColor.lift (fun c => .hexO (AbstractConversionMethods.fromRgbToHex c)),
   s.normalizedColor.lift .rgbO,
   s.normalizedColor.lift (fun c => .hslO (AbstractConversionMethods.fromRgbToHsl c)),
   s.normalizedColor.lift (fun c => .hwbO (AbstractConversionMethods.fromRgbToHwb c)),
   s.normalizedColor.lift (fun c => .hsvO (AbstractConversionMethods.fromRgbToHsv c))]

/-- Construct a converter on `color` tagged `currentModel`, then convert to
`targetModel` — the end-to-end path a caller of the class runs. -/
def convertFrom (currentModel : String) (color : ColorValue) (targetModel : String) :
    Except String (Option ColorOutput) :=
  (mk currentModel color).bind (fun s => convertTo s targetModel)

end AbstractColorConverter

namespace ServiceColorConverter

/-- `ColorConverter.convertTo` from `color-converter-service.class.ts`
(lines 373-392): unlike the `part_002` variant it has no `rgb` case and no
throwing default — any unrecognized target silently returns
`this.normalizedColor`. -/
def convertTo (normalizedColor : RgbParse) (toModel : String) : Option ColorOutput :=
  if toModel = "hex" then
    normalizedColor.lift (fun c => .hexO (ColorsConverterMethods.fromRgbToHex c))
  else if toModel = "hsl" then
    normalizedColor.lift (fun c => .hslO (ColorsConverterMethods.fromRgbToHsl c))
  else if toModel = "hwb" then
    normalizedColor.lift (fun c => .hwbO (ColorsConverterMethods.fromRgbToHwb c))
  else if toModel = "hsv" then
    normalizedColor.lift (fun c => .hsvO (ColorsConverterMethods.fromRgbToHsv c))
  else normalizedColor.lift .rgbO

end ServiceColorConverter

/-! ### Evaluation helpers for the rational primitives -/

theorem jsRound_eq (q : ℚ) (n : ℤ) (h1 : (n : ℚ) ≤ q + 1/2) (h2 : q + 1/2 < (n : ℚ) + 1) :
    jsRound q = (n : ℚ) := by
  unfold jsRound
  norm_cast
  rw [Int.floor_eq_iff]
  exact ⟨h1, by linarith⟩

theorem ratTrunc_eq_of_nonneg (q : ℚ) (n : ℤ) (h0 : 0 ≤ q) (h1 : (n : ℚ) ≤ q)
    (h2 : q < (n : ℚ) + 1) : ratTrunc q = n := by
  unfold ratTrunc
  rw [if_neg (by linarith)]
  rw [Int.floor_eq_iff]
  exact ⟨h1, by linarith⟩

theorem ratTrunc_zero : ratTrunc 0 = 0 := by
  simp [ratTrunc]

theorem jsRound_zero : jsRound 0 = 0 := by
  rw [jsRound_eq 0 0 (by norm_num) (by norm_num)]
  norm_num

theorem jsMod_zero (y : ℚ) : jsMod 0 y = 0 := by
  simp [jsMod, ratTrunc]

/-- `x % y = x` whenever `0 ≤ x/y < 1` (the usual case for an in-range hue). -/
theorem jsMod_eq_self (x y : ℚ) (h0 : 0 ≤ x / y) (h1 : x / y < 1) : jsMod x y = x := by
  unfold jsMod
  rw [ratTrunc_eq_of_nonneg _ 0 h0 (by exact_mod_cast h0) (by push_cast; linarith)]
  ring

/-! ### C10 -/

/-- C10: construction-time freezing.  Every field read by `convertTo` and
`getAllColorModels` is the private `normalizedColor` computed once by the
constructor, so reassigning the public `color` field of a constructed
`ColorConverter` changes the result of no subsequent `convertTo` or
`getAllColorModels` call. -/
theorem convertTo_ignores_color_reassignment :
    ∀ (s : AbstractColorConverter.State) (c : ColorValue) (t : String),
      AbstractColorConverter.convertTo { s with color := c } t =
          AbstractColorConverter.convertTo s t ∧
        AbstractColorConverter.getAllColorModels { s with color := c } =
          AbstractColorConverter.getAllColorModels s :=
  fun _ _ _ => ⟨rfl, rfl⟩

/-! ### C9 -/

/-- C9: dispatch equivalence.  For every pair of models without a direct
formula (sources HSL/HWB/HSV/HEX, targets other than RGB and the source),
running the `part_002` `ColorConverter` end to end (constructor
normalization, then `convertTo`) produces exactly the two-hop composition:
first the source-to-RGB formula, then the RGB-to-target formula. -/
theorem dispatch_equivalence :
    (∀ c : HueSaturationLightness,
      AbstractColorConverter.convertFrom "hsl" (.hslV c) "hwb" =
          .ok (some (.hwbO (AbstractConversionMethods.fromRgbToHwb
            (AbstractConversionMethods.fromHslToRgb c)))) ∧
        AbstractColorConverter.convertFrom "hsl" (.hslV c) "hsv" =
          .ok (some (.hsvO (AbstractConversionMethods.fromRgbToHsv
            (AbstractConversionMethods.fromHslToRgb c)))) ∧
        AbstractColorConverter.convertFrom "hsl" (.hslV c) "hex" =
          .ok (some (.hexO (AbstractConversionMethods.fromRgbToHex
            (AbstractConversionMethods.fromHslToRgb c))))) ∧
      (∀ c : HueWhitenessBlackness,
        AbstractColorConverter.convertFrom "hwb" (.hwbV c) "hsl" =
            .ok (some (.hslO (AbstractConversionMethods.fromRgbToHsl
              (AbstractConversionMethods.fromHwbToRgb c)))) ∧
          AbstractColorConverter.convertFrom "hwb" (.hwbV c) "hsv" =
            .ok (some (.hsvO (AbstractConversionMethods.fromRgbToHsv
              (AbstractConversionMethods.fromHwbToRgb c)))) ∧
          AbstractColorConverter.convertFrom "hwb" (.hwbV c) "hex" =
            .ok (some (.hexO (AbstractConversionMethods.fromRgbToHex
              (AbstractConversionMethods.fromHwbToRgb c))))) ∧
      (∀ c : HueSaturationValue,
        AbstractColorConverter.convertFrom "hsv" (.hsvV c) "hsl" =
            .ok (some (.hslO (AbstractConversionMethods.fromRgbToHsl
              (AbstractConversionMethods.fromHsvToRgb c)))) ∧
          AbstractColorConverter.convertFrom "hsv" (.hsvV c) "hwb" =
            .ok (some (.hwbO (AbstractConversionMethods.fromRgbToHwb
              (AbstractConversionMethods.fromHsvToRgb c)))) ∧
          AbstractColorConverter.convertFrom "hsv" (.hsvV c) "hex" =
            .ok (some (.hexO (AbstractConversionMethods.fromRgbToHex
              (AbstractConversionMethods.fromHsvToRgb c))))) ∧
      (∀ s : String,
        AbstractColorConverter.convertFrom "hex" (.hexV s) "hsl" =
            .ok ((AbstractConversionMethods.fromHexToRgb s).lift
              (fun c => .hslO (AbstractConversionMethods.fromRgbToHsl c))) ∧
          AbstractColorConverter.convertFrom "hex" (.hexV s) "hwb" =
            .ok ((AbstractConversionMethods.fromHexToRgb s).lift
              (fun c => .hwbO (AbstractConversionMethods.fromRgbToHwb c))) ∧
          AbstractColorConverter.convertFrom "hex" (.hexV s) "hsv" =
            .ok ((AbstractConversionMethods.fromHexToRgb s).lift
              (fun c => .hsvO (AbstractConversionMethods.fromRgbToHsv c)))) :=
  ⟨fun _ => ⟨rfl, rfl, rfl⟩, fun _ => ⟨rfl, rfl, rfl⟩,
   fun _ => ⟨rfl, rfl, rfl⟩, fun _ => ⟨rfl, rfl, rfl⟩⟩

/-! ### C6 -/

/-- C6 counterexample: at the unsupported tag "oklch", the `part_002`
`normalizeToRgb` and `convertTo` throw `Error("Invalid color model.")`
(embedded as `Except.error`, see their doc comments) instead of returning
an `InvalidModel`/`UnsupportedTarget` error value, and the service-class
`convertTo` returns the normalized RGB value silently — it produces no
error at all. -/
theorem convertTo_unsupported_tag_cex :
    AbstractColorConverter.normalizeToRgb "oklch" (.rgbV ⟨0, 0, 0⟩) =
        .error "Invalid color model." ∧
      AbstractColorConverter.convertTo
          { color := .rgbV ⟨0, 0, 0⟩, currentModel := "rgb",
            normalizedColor := RgbParse.ofRgb ⟨0, 0, 0⟩ } "oklch" =
        .error "Invalid color model." ∧
      ServiceColorConverter.convertTo (RgbParse.ofRgb ⟨1, 2, 3⟩) "oklch" =
        some (.rgbO ⟨1, 2, 3⟩) :=
  ⟨rfl, rfl, rfl⟩

/-- C6 amended: for every tag outside the five supported models, the
`part_002` `normalizeToRgb` and `convertTo` throw
`Error("Invalid color model.")` (they do not return an error value), and
the service-class `convertTo` silently falls through to returning the
stored normalized color. -/
theorem convertTo_unsupported_tag (tag : String)
    (h : tag ∉ ["hex", "rgb", "hsl", "hwb", "hsv"]) :
    (∀ v, AbstractColorConverter.normalizeToRgb tag v = .error "Invalid color model.") ∧
      (∀ s, AbstractColorConverter.convertTo s tag = .error "Invalid color model.") ∧
      (∀ p, ServiceColorConverter.convertTo p tag = p.lift .rgbO) := by
  simp only [List.mem_cons, List.not_mem_nil, or_false, not_or] at h
  obtain ⟨h1, h2, h3, h4, h5⟩ := h
  refine ⟨fun v => ?_, fun s => ?_, fun p => ?_⟩
  · simp [AbstractColorConverter.normalizeToRgb, h1, h2, h3, h4, h5]
  · simp [AbstractColorConverter.convertTo, h1, h2, h3, h4, h5]
  · simp [ServiceColorConverter.convertTo, h1, h3, h4, h5]

/-- C6 witness: the amended theorem applied at the concrete unsupported
tag "oklab". -/
theorem convertTo_unsupported_tag_witness :
    AbstractColorConverter.normalizeToRgb "oklab" (.rgbV ⟨0, 0, 0⟩) =
      .error "Invalid color model." :=
  (convertTo_unsupported_tag "oklab" (by decide)).1 (.rgbV ⟨0, 0, 0⟩)

/-! ### C4 -/

/-- C4 counterexample: `fromHexToRgb "ZZZZZZ"` does not fail with a
`MalformedHex` error value (its return type carries no error case at all):
the string has length 6, so not even the length log fires
(`fromHexToRgbLogs` is `false`), and the function proceeds, returning a
record whose three channels are the `NaN`s of the failed base-16 parses. -/
theorem fromHexToRgb_malformed_cex :
    ColorsConverterMethods.fromHexToRgb "ZZZZZZ" = { red := none, green := none, blue := none } ∧
      ColorsConverterMethods.fromHexToRgbLogs "ZZZZZZ" = false :=
  ⟨rfl, rfl⟩

/-- C4 amended: `fromHexToRgb` never returns (or throws) a `MalformedHex`
error: it always proceeds to return an RGB record, and its only reaction
to a malformed input is the `console.error` log, which fires exactly when
the raw input length is below 6 or above 7 — so a 6-character non-hex
string such as "ZZZZZZ" is not flagged at all and yields `NaN` channels. -/
theorem fromHexToRgb_malformed :
    (∀ s : String, ColorsConverterMethods.fromHexToRgbLogs s = true ↔
        (s.length < 6 ∨ 7 < s.length)) ∧
      ColorsConverterMethods.fromHexToRgb "ZZZZZZ" =
        { red := none, green := none, blue := none } := by
  refine ⟨fun s => ?_, rfl⟩
  simp [ColorsConverterMethods.fromHexToRgbLogs]

/-! ### Concrete evaluations of the rational conversion functions -/

/-- `fromRgbToHsl` on black (both classes share this function). -/
theorem fromRgbToHsl_black : ColorsConverterMethods.fromRgbToHsl ⟨0, 0, 0⟩ = ⟨0, 0, 0⟩ := by
  unfold ColorsConverterMethods.fromRgbToHsl
  norm_num [jsRound_zero, jsMod_zero]

/-- `fromRgbToHsl` on the out-of-range input rgb(300, 0, 0): the guard only
logs, and the conversion runs on the unclamped channels, producing a
saturation of 143 (beyond the declared [0,100] interval). -/
theorem fromRgbToHsl_overflow :
    ColorsConverterMethods.fromRgbToHsl ⟨300, 0, 0⟩ = ⟨0, 143, 59⟩ := by
  unfold ColorsConverterMethods.fromRgbToHsl
  norm_num [max_def, min_def, jsRound_zero, jsMod_zero,
    jsRound_eq (1000/7 : ℚ) 143 (by norm_num) (by norm_num),
    jsRound_eq (1000/17 : ℚ) 59 (by norm_num) (by norm_num)]

/-- `fromRgbToHwb` on black. -/
theorem fromRgbToHwb_black : ColorsConverterMethods.fromRgbToHwb ⟨0, 0, 0⟩ = ⟨0, 0, 100⟩ := by
  unfold ColorsConverterMethods.fromRgbToHwb
  rw [fromRgbToHsl_black]
  norm_num [jsRound_zero, jsMod_zero,
    jsRound_eq (100 : ℚ) 100 (by norm_num) (by norm_num)]

/-- `fromRgbToHsv` on black (the `max ≠ 0` guard takes the zero branch). -/
theorem fromRgbToHsv_black : ColorsConverterMethods.fromRgbToHsv ⟨0, 0, 0⟩ = ⟨0, 0, 0⟩ := by
  unfold ColorsConverterMethods.fromRgbToHsv
  rw [fromRgbToHsl_black]
  norm_num [jsRound_zero, jsMod_zero]

/-- The service-class `fromHslToRgb` on the fully saturated half-lightness
HSL color at hue 0: the components come out on the RAW lightness scale
(≈ 50), not in [0,255]. -/
theorem fromHslToRgb_service_red :
    ColorsConverterMethods.fromHslToRgb ⟨0, 100, 50⟩ = ⟨101/2, 99/2, 99/2⟩ := by
  unfold ColorsConverterMethods.fromHslToRgb
  norm_num [max_def, min_def, jsMod_zero,
    jsMod_eq_self 8 12 (by norm_num) (by norm_num),
    jsMod_eq_self 4 12 (by norm_num) (by norm_num)]

/-- The `part_002` `fromHslToRgb` on the same input yields pure red. -/
theorem fromHslToRgb_abstract_red :
    AbstractConversionMethods.fromHslToRgb ⟨0, 100, 50⟩ = ⟨255, 0, 0⟩ := by
  unfold AbstractConversionMethods.fromHslToRgb
  norm_num [max_def, min_def, jsMod_zero, jsRound_zero,
    jsMod_eq_self 8 12 (by norm_num) (by norm_num),
    jsMod_eq_self 4 12 (by norm_num) (by norm_num),
    jsRound_eq (255 : ℚ) 255 (by norm_num) (by norm_num)]

/-! ### C5 -/

/-- C5 counterexample: `fromRgbToHsl` given rgb(300, 0, 0) does not return
an `OutOfRangeChannel` error value (its return type has no error case):
the guard logs — `fromRgbToHslLogs` is `true` — and the conversion then
proceeds on the unclamped input, returning a fully computed HSL record
(whose saturation, 143, even exceeds 100). -/
theorem fromRgbToHsl_out_of_range_cex :
    ColorsConverterMethods.fromRgbToHslLogs ⟨300, 0, 0⟩ = true ∧
      ColorsConverterMethods.fromRgbToHsl ⟨300, 0, 0⟩ = ⟨0, 143, 59⟩ := by
  refine ⟨by norm_num [ColorsConverterMethods.fromRgbToHslLogs], fromRgbToHsl_overflow⟩

/-- C5 amended: an invalid RGB input (non-integral channel or channel
outside [0,255]) makes `fromRgbToHsl` log a `console.error` naming the
received channel values — the log guard fires exactly on invalid inputs —
and the conversion then proceeds on the unclamped input instead of
returning a typed error. -/
theorem fromRgbToHsl_out_of_range_logs :
    (∀ c : RedGreenBlue, ColorsConverterMethods.fromRgbToHslLogs c = true ↔
        (¬ c.red.den = 1 ∨ ¬ c.green.den = 1 ∨ ¬ c.blue.den = 1 ∨
          c.red < 0 ∨ 255 < c.red ∨ c.green < 0 ∨ 255 < c.green ∨
          c.blue < 0 ∨ 255 < c.blue)) ∧
      100 < (ColorsConverterMethods.fromRgbToHsl ⟨300, 0, 0⟩).saturation := by
  refine ⟨fun c => ?_, ?_⟩
  · simp [ColorsConverterMethods.fromRgbToHslLogs, or_assoc]
  · rw [fromRgbToHsl_overflow]
    norm_num

/-! ### C2 -/

/-- C2 (code bug): the service-class `fromHwbToRgb` applied to the valid
HWB input (hue 0, whiteness 0, blackness 0) — which denotes pure red —
returns channels far outside [0,255]: it blends the unnormalized
`fromHslToRgb` components (themselves on the wrong scale) and multiplies
by 100, yielding rgb(5050, 4950, 4950). -/
theorem fromHwbToRgb_service_out_of_range :
    ColorsConverterMethods.fromHwbToRgb ⟨0, 0, 0⟩ = ⟨5050, 4950, 4950⟩ ∧
      255 < (ColorsConverterMethods.fromHwbToRgb ⟨0, 0, 0⟩).red := by
  have h : ColorsConverterMethods.fromHwbToRgb ⟨0, 0, 0⟩ = ⟨5050, 4950, 4950⟩ := by
    unfold ColorsConverterMethods.fromHwbToRgb
    rw [if_neg (by norm_num)]
    rw [fromHslToRgb_service_red]
    norm_num [jsRound_eq (5050 : ℚ) 5050 (by norm_num) (by norm_num),
      jsRound_eq (4950 : ℚ) 4950 (by norm_num) (by norm_num)]
  exact ⟨h, by rw [h]; norm_num⟩

/-! ### C3 -/

/-- C3 (code bug): the achromatic branch of the `part_002` `fromHwbToRgb`
scales the grey level `whiteness / (whiteness + blackness)` by 100, not
255: pure white hwb(0, 100, 0) comes back as rgb(100, 100, 100) instead of
rgb(255, 255, 255) — inconsistently with the same function's non-grey
branch, which scales by 255. -/
theorem fromHwbToRgb_grey_scales_by_100 :
    AbstractConversionMethods.fromHwbToRgb ⟨0, 100, 0⟩ = ⟨100, 100, 100⟩ ∧
      AbstractConversionMethods.fromHwbToRgb ⟨0, 100, 0⟩ ≠ ⟨255, 255, 255⟩ := by
  have h : AbstractConversionMethods.fromHwbToRgb ⟨0, 100, 0⟩ = ⟨100, 100, 100⟩ := by
    unfold AbstractConversionMethods.fromHwbToRgb
    rw [if_pos (by norm_num)]
    norm_num [jsRound_eq (100 : ℚ) 100 (by norm_num) (by norm_num)]
  refine ⟨h, ?_⟩
  rw [h]
  intro hcon
  have hred := congrArg RedGreenBlue.red hcon
  norm_num at hred

/-! ### C7 -/

/-- C7 counterexample: `getAllColorModels` on the converter built from
rgb(0, 0, 0) does not return the hex string "#000000": the hex entry is
the unpadded, semicolon-suffixed "#000;" produced by `fromRgbToHex`. -/
theorem getAllColorModels_black_cex :
    (AbstractColorConverter.mk "rgb" (.rgbV ⟨0, 0, 0⟩)).map
        AbstractColorConverter.getAllColorModels ≠
      .ok [some (.hexO "#000000"), some (.rgbO ⟨0, 0, 0⟩), some (.hslO ⟨0, 0, 0⟩),
           some (.hwbO ⟨0, 0, 100⟩), some (.hsvO ⟨0, 0, 0⟩)] := by
  intro h
  have h0 := congrArg
    (fun x : Except String (List (Option ColorOutput)) => match x with
      | .ok (some (.hexO s) :: _) => s
      | _ => "") h
  exact absurd h0 (by decide)

/-- C7 amended: the converter built from rgb(0, 0, 0) normalizes once in
the constructor and `getAllColorModels` reads the five representations off
that single stored value; the result is `["#000;", rgb(0,0,0),
hsl(0,0,0), hwb(0,0,100), hsv(0,0,0)]` — as the claim states except for
the hex entry, which is unpadded and carries the stray trailing ";". -/
theorem getAllColorModels_black :
    (AbstractColorConverter.mk "rgb" (.rgbV ⟨0, 0, 0⟩)).map
        AbstractColorConverter.getAllColorModels =
      .ok [some (.hexO "#000;"), some (.rgbO ⟨0, 0, 0⟩), some (.hslO ⟨0, 0, 0⟩),
           some (.hwbO ⟨0, 0, 100⟩), some (.hsvO ⟨0, 0, 0⟩)] := by
  show Except.ok (AbstractColorConverter.getAllColorModels
    { color := .rgbV ⟨0, 0, 0⟩, currentModel := "rgb",
      normalizedColor := RgbParse.ofRgb ⟨0, 0, 0⟩ }) = _
  simp only [AbstractColorConverter.getAllColorModels, RgbParse.lift, RgbParse.ofRgb,
    AbstractConversionMethods.fromRgbToHex, AbstractConversionMethods.fromRgbToHsl,
    AbstractConversionMethods.fromRgbToHwb, AbstractConversionMethods.fromRgbToHsv]
  rw [fromRgbToHsl_black, fromRgbToHwb_black, fromRgbToHsv_black]
  rfl

/-! ### C1: hex round trip -/

/-- `Nat.toDigits` writes every integer in [16, 255] as exactly the two
hexadecimal digit characters of its quotient and remainder by 16. -/
theorem toDigits_two_hex :
    ∀ n < 256, 16 ≤ n → Nat.toDigits 16 n = [Nat.digitChar (n / 16), Nat.digitChar (n % 16)] := by
  decide

/-- `decimalToHexadecimal` on a natural channel value is the hex digit
string of that value. -/
theorem decimalToHexadecimal_natCast (n : ℕ) :
    decimalToHexadecimal (n : ℚ) = ⟨Nat.toDigits 16 n⟩ := by
  unfold decimalToHexadecimal
  rw [if_pos ⟨Rat.den_natCast n, by simp⟩]
  rw [Rat.num_natCast, Int.toNat_natCast]

/-- Parsing a two-hex-digit-character string recovers its value. -/
theorem hexadecimalToDecimal_two_digits :
    ∀ a < 16, ∀ b < 16,
      hexadecimalToDecimal ⟨[Nat.digitChar a, Nat.digitChar b]⟩ = some (16 * a + b) := by
  decide

/-- `fromHexToRgb` on a string of the shape `#rrggbb;` (as produced by
`fromRgbToHex` when all channels print with two digits) parses the three
2-character groups; the trailing ";" is cut off by the substring at 4-6. -/
theorem fromHexToRgb_eight (c1 c2 c3 c4 c5 c6 : Char) :
    ColorsConverterMethods.fromHexToRgb ⟨['#', c1, c2, c3, c4, c5, c6, ';']⟩ =
      { red := (hexadecimalToDecimal ⟨[c1, c2]⟩).map (fun n => (n : ℚ))
        green := (hexadecimalToDecimal ⟨[c3, c4]⟩).map (fun n => (n : ℚ))
        blue := (hexadecimalToDecimal ⟨[c5, c6]⟩).map (fun n => (n : ℚ)) } := rfl

/-- Concatenating `#`, three 2-character groups and `;` gives the explicit
8-character string. -/
theorem string_append_groups (a1 a2 b1 b2 c1 c2 : Char) :
    "#" ++ (⟨[a1, a2]⟩ : String) ++ ⟨[b1, b2]⟩ ++ ⟨[c1, c2]⟩ ++ ";" =
      (⟨['#', a1, a2, b1, b2, c1, c2, ';']⟩ : String) := rfl

/-- C1 amended: the hex round trip holds exactly on the channels whose hex
form has two digits: for every RGB value with all three integer channels
in [16, 255], `fromHexToRgb (fromRgbToHex c)` recovers the channels (the
produced string `#rrggbb;` has length 8, so the length guard logs, and the
stray ";" lands beyond the substring at positions 4-6); channels below 16
are printed with a single unpadded digit, which breaks the round trip (see
the counterexample). -/
theorem hex_round_trip (r g b : ℕ)
    (hr1 : 16 ≤ r) (hr2 : r ≤ 255) (hg1 : 16 ≤ g) (hg2 : g ≤ 255)
    (hb1 : 16 ≤ b) (hb2 : b ≤ 255) :
    ColorsConverterMethods.fromHexToRgb
        (ColorsConverterMethods.fromRgbToHex ⟨(r : ℚ), (g : ℚ), (b : ℚ)⟩) =
      { red := some (r : ℚ), green := some (g : ℚ), blue := some (b : ℚ) } := by
  have er := decimalToHexadecimal_natCast r
  have eg := decimalToHexadecimal_natCast g
  have eb := decimalToHexadecimal_natCast b
  rw [toDigits_two_hex r (by omega) hr1] at er
  rw [toDigits_two_hex g (by omega) hg1] at eg
  rw [toDigits_two_hex b (by omega) hb1] at eb
  simp only [ColorsConverterMethods.fromRgbToHex]
  rw [er, eg, eb, string_append_groups, fromHexToRgb_eight]
  rw [hexadecimalToDecimal_two_digits (r / 16) (by omega) (r % 16) (by omega)]
  rw [hexadecimalToDecimal_two_digits (g / 16) (by omega) (g % 16) (by omega)]
  rw [hexadecimalToDecimal_two_digits (b / 16) (by omega) (b % 16) (by omega)]
  rw [Nat.div_add_mod r 16, Nat.div_add_mod g 16, Nat.div_add_mod b 16]
  rfl

/-- C1 witness: the amended round trip evaluated at rgb(255, 64, 32). -/
theorem hex_round_trip_witness :
    ColorsConverterMethods.fromHexToRgb
        (ColorsConverterMethods.fromRgbToHex ⟨(255 : ℚ), (64 : ℚ), (32 : ℚ)⟩) =
      { red := some ((255 : ℕ) : ℚ), green := some ((64 : ℕ) : ℚ),
        blue := some ((32 : ℕ) : ℚ) } := by
  have h := hex_round_trip 255 64 32 (by norm_num) (by norm_num) (by norm_num)
    (by norm_num) (by norm_num) (by norm_num)
  exact_mod_cast h

/-- C1 counterexample: at rgb(0, 0, 0) the round trip fails.
`fromRgbToHex` prints each zero channel as a single digit, yielding the
5-character string "#000;"; parsing then reads the groups "00", "0;" and
"" — the blue group is empty, so its parse is `NaN` and the result is not
rgb(0, 0, 0). -/
theorem hex_round_trip_cex :
    ColorsConverterMethods.fromRgbToHex ⟨0, 0, 0⟩ = "#000;" ∧
      ColorsConverterMethods.fromHexToRgb
          (ColorsConverterMethods.fromRgbToHex ⟨0, 0, 0⟩) =
        { red := some 0, green := some 0, blue := none } ∧
      ({ red := some 0, green := some 0, blue := none } : RgbParse) ≠
        RgbParse.ofRgb ⟨0, 0, 0⟩ := by
  refine ⟨rfl, ?_, ?_⟩
  · show ColorsConverterMethods.fromHexToRgb "#000;" = _
    rfl
  · intro h
    have hblue := congrArg RgbParse.blue h
    simp [RgbParse.ofRgb] at hblue

/-! ### C8: HSL round trip -/

theorem jsRound_le (q : ℚ) : jsRound q ≤ q + 1/2 :=
  Int.floor_le (q + 1/2)

theorem le_jsRound (q : ℚ) : q - 1/2 ≤ jsRound q := by
  have h := Int.lt_floor_add_one (q + 1/2)
  unfold jsRound
  linarith

/-- C8 counterexample: the claimed per-channel tolerance of 1 fails at
rgb(255, 2, 0).  Its exact hue, 8/17 of a degree, rounds to 0, so
`fromRgbToHsl` returns hsl(0, 100, 50) — pure red — and the `part_002`
`fromHslToRgb` maps that back to rgb(255, 0, 0): the green channel moves
by 2. -/
theorem hsl_round_trip_cex :
    AbstractConversionMethods.fromHslToRgb
        (AbstractConversionMethods.fromRgbToHsl ⟨255, 2, 0⟩) = ⟨255, 0, 0⟩ ∧
      1 < |(AbstractConversionMethods.fromHslToRgb
        (AbstractConversionMethods.fromRgbToHsl ⟨255, 2, 0⟩)).green - 2| := by
  have h1 : AbstractConversionMethods.fromRgbToHsl ⟨255, 2, 0⟩ = ⟨0, 100, 50⟩ := by
    unfold AbstractConversionMethods.fromRgbToHsl ColorsConverterMethods.fromRgbToHsl
    norm_num [max_def, min_def, jsMod_zero,
      jsRound_eq (8/17 : ℚ) 0 (by norm_num) (by norm_num),
      jsRound_eq (100 : ℚ) 100 (by norm_num) (by norm_num),
      jsRound_eq (50 : ℚ) 50 (by norm_num) (by norm_num)]
  rw [h1, fromHslToRgb_abstract_red]
  norm_num

/-- `fromRgbToHsl` on an achromatic input: hue and saturation are 0 and
the lightness is the rounded percentage of the common channel. -/
theorem fromRgbToHsl_achromatic (x : ℚ) :
    ColorsConverterMethods.fromRgbToHsl ⟨x, x, x⟩ =
      ⟨0, 0, jsRound ((x / 255 + x / 255) / 2 * 100)⟩ := by
  simp only [ColorsConverterMethods.fromRgbToHsl]
  simp [max_self, min_self, jsRound_zero, jsMod_zero]

/-- The `part_002` `fromHslToRgb` on a zero-saturation input: chroma
vanishes and all three channels are the rounded rescaling of the
lightness. -/
theorem fromHslToRgb_abstract_grey (l : ℚ) :
    AbstractConversionMethods.fromHslToRgb ⟨0, 0, l⟩ =
      ⟨jsRound (l / 100 * 255), jsRound (l / 100 * 255), jsRound (l / 100 * 255)⟩ := by
  simp only [AbstractConversionMethods.fromHslToRgb]
  norm_num

/-- C8 amended: the tolerance-1 round trip does hold on the achromatic
diagonal: for every integer channel value r in [0, 255], the round trip of
rgb(r, r, r) through the shared `fromRgbToHsl` and the `part_002`
`fromHslToRgb` yields an achromatic color whose common channel differs
from r by at most 1.  (Off the diagonal the bound fails — rounding the hue
to whole degrees alone can move a channel by 2, see the counterexample.) -/
theorem hsl_round_trip_achromatic (r : ℕ) (_hr : r ≤ 255) :
    (AbstractConversionMethods.fromHslToRgb
          (AbstractConversionMethods.fromRgbToHsl ⟨(r : ℚ), (r : ℚ), (r : ℚ)⟩)).green =
        (AbstractConversionMethods.fromHslToRgb
          (AbstractConversionMethods.fromRgbToHsl ⟨(r : ℚ), (r : ℚ), (r : ℚ)⟩)).red ∧
      (AbstractConversionMethods.fromHslToRgb
          (AbstractConversionMethods.fromRgbToHsl ⟨(r : ℚ), (r : ℚ), (r : ℚ)⟩)).blue =
        (AbstractConversionMethods.fromHslToRgb
          (AbstractConversionMethods.fromRgbToHsl ⟨(r : ℚ), (r : ℚ), (r : ℚ)⟩)).red ∧
      |(AbstractConversionMethods.fromHslToRgb
          (AbstractConversionMethods.fromRgbToHsl ⟨(r : ℚ), (r : ℚ), (r : ℚ)⟩)).red - (r : ℚ)| ≤ 1 := by
  have h1 : AbstractConversionMethods.fromRgbToHsl ⟨(r : ℚ), (r : ℚ), (r : ℚ)⟩ =
      ⟨0, 0, jsRound (((r : ℚ) / 255 + (r : ℚ) / 255) / 2 * 100)⟩ := by
    show ColorsConverterMethods.fromRgbToHsl _ = _
    exact fromRgbToHsl_achromatic (r : ℚ)
  rw [h1, fromHslToRgb_abstract_grey]
  refine ⟨rfl, rfl, ?_⟩
  have l1 := le_jsRound (((r : ℚ) / 255 + (r : ℚ) / 255) / 2 * 100)
  have l2 := jsRound_le (((r : ℚ) / 255 + (r : ℚ) / 255) / 2 * 100)
  obtain ⟨mL, hmL⟩ : ∃ m : ℤ,
      jsRound (((r : ℚ) / 255 + (r : ℚ) / 255) / 2 * 100) = (m : ℚ) := ⟨_, rfl⟩
  rw [hmL] at l1 l2 ⊢
  have b1 := le_jsRound ((mL : ℚ) / 100 * 255)
  have b2 := jsRound_le ((mL : ℚ) / 100 * 255)
  obtain ⟨mB, hmB⟩ : ∃ m : ℤ, jsRound ((mL : ℚ) / 100 * 255) = (m : ℚ) := ⟨_, rfl⟩
  rw [hmB] at b1 b2 ⊢
  show |(mB : ℚ) - (r : ℚ)| ≤ 1
  have hq1 : (mB : ℚ) - (r : ℚ) < 2 := by linarith
  have hq2 : -(2 : ℚ) < (mB : ℚ) - (r : ℚ) := by linarith
  have hi1 : mB - (r : ℤ) < 2 := by exact_mod_cast hq1
  have hi2 : -(2 : ℤ) < mB - (r : ℤ) := by exact_mod_cast hq2
  have hi3 : mB - (r : ℤ) ≤ 1 := by omega
  have hi4 : -(1 : ℤ) ≤ mB - (r : ℤ) := by omega
  rw [abs_le]
  constructor
  · exact_mod_cast hi4
  · exact_mod_cast hi3

/-- C8 witness: the amended achromatic round trip evaluated at r = 200
(hsl lightness rounds to 78, which maps back to 199 — distance 1). -/
theorem hsl_round_trip_achromatic_witness :
    |(AbstractConversionMethods.fromHslToRgb
        (AbstractConversionMethods.fromRgbToHsl ⟨(200 : ℚ), (200 : ℚ), (200 : ℚ)⟩)).red -
      ((200 : ℕ) : ℚ)| ≤ 1 :=
  (hsl_round_trip_achromatic 200 (by norm_num)).2.2
